import Mathlib

/-!
Shallow embedding of the client telemetry tracker (`tracker.ts`, enhanced
version): the event queue / delivery engine of the `Tracker` class.

Modelling conventions:
* The tracker's mutable fields become a `TrackerState` record; every method
  is a pure function from state (plus explicit oracles) to state.
* Environmental effects are passed as explicit oracle arguments:
  - `draw : Nat` — the value of `Math.random() * 100` truncated to a natural
    number in `[0, 100)`, used by `shouldSampleEvent`;
  - `now : Nat` — the value of `Date.now()` in milliseconds;
  - `storageOk : Bool` — whether a `localStorage.setItem` call succeeds
    (the source swallows storage exceptions in a `try/catch`);
  - `FlushOutcome` — the result of the awaited `fetch`: success, a non-ok
    HTTP response, or a transport error (rejected promise).
* The durable queue mirror (`localStorage` key `analytics_event_queue`) is
  modelled by `StoredQueue`: the stored string either is absent, fails
  `JSON.parse`, parses to a non-array, or parses to an array of events.
  Serialisation of plain event records round-trips through JSON, so a
  successful write of queue `q` is modelled as `StoredQueue.parsedArray q`.
* Event option bags (`TrackEventOptions` / `TrackPageviewOptions`) are
  abstracted to an opaque `payload : String`: no claim inspects individual
  option fields, only identity, order and the `type`/`timestamp` stamps.
* `flushEvents` is `async` with a single suspension point (the `fetch`).
  It is split into `flushBegin` (the synchronous prefix: guards, snapshot,
  clear, persist-empty, set the in-flight flag) and `flushFinish` (the
  continuation after the awaited send: `catch` re-queue and `finally`).
  `flushEventsE` composes them atomically and returns `Except` to record
  that no exception escapes the method; interleavings with enqueues that
  happen during the in-flight send are expressed by running `queueEvent`
  steps between `flushBegin` and `flushFinish`.
-/

inductive EvType where
  | event
  | pageview
deriving DecidableEq, Repr

/-- A queued observation: `{ ...event, type, timestamp: Date.now() }`. -/
structure QueuedEvent where
  type : EvType
  payload : String
  timestamp : Nat
deriving DecidableEq, Repr

/-- `SessionData` from the source: id, timestamps and per-session counters. -/
structure SessionData where
  id : String
  startTime : Nat
  lastActivity : Nat
  pageviews : Nat
  events : Nat
  initialReferrer : String
  initialLandingPage : String
deriving DecidableEq, Repr

inductive ConnStatus where
  | online
  | offline
deriving DecidableEq, Repr

/-- Contents of the durable mirror key `analytics_event_queue`:
absent, a string `JSON.parse` throws on, a parse result that is not an
array, or an array of queued events. -/
inductive StoredQueue where
  | absent
  | unparseable
  | parsedNonArray
  | parsedArray (events : List QueuedEvent)
deriving DecidableEq, Repr

/-- `TrackerOptions` after the constructor merges the defaults. Fields the
claims never consult (endpoints, autoTrack, debug, flushInterval) are
omitted. -/
structure TrackerOptions where
  siteId : String
  batchSize : Nat := 10
  enableOfflineTracking : Bool := true
  sessionTimeout : Nat := 30
  samplingRate : Nat := 100
  manualFlush : Bool := false
deriving DecidableEq, Repr

/-- The mutable fields of the `Tracker` class, plus the durable mirror. -/
structure TrackerState where
  options : TrackerOptions
  userId : String
  sessionData : SessionData
  eventQueue : List QueuedEvent
  isSending : Bool
  connectionStatus : ConnStatus
  mirror : StoredQueue
deriving DecidableEq, Repr

/-- `QueueStatus` returned by `getQueueStatus`. -/
structure QueueStatus where
  queueLength : Nat
  events : List QueuedEvent
  connectionStatus : ConnStatus
  manualFlush : Bool
deriving DecidableEq, Repr

/-- `this.options.batchSize || 10` (`0` is falsy in JS). -/
def effBatchSize (opts : TrackerOptions) : Nat :=
  if opts.batchSize = 0 then 10 else opts.batchSize

/-- `(this.options.sessionTimeout || 30) * 60 * 1000`. -/
def sessionTimeoutMs (opts : TrackerOptions) : Nat :=
  (if opts.sessionTimeout = 0 then 30 else opts.sessionTimeout) * 60 * 1000

/-- `shouldSampleEvent`: `100` always admits, `0` never, otherwise
`Math.random() * 100 < samplingRate` with the draw given as an oracle. -/
def shouldSampleEvent (opts : TrackerOptions) (draw : Nat) : Bool :=
  if opts.samplingRate = 100 then true
  else if opts.samplingRate = 0 then false
  else decide (draw < opts.samplingRate)

/-- A `localStorage.setItem('analytics_event_queue', JSON.stringify(q))`
attempt inside the source's `try { } catch { /* ignore */ }`: on success the
mirror now holds `q`, on failure it keeps its previous contents. -/
def persistQueueMirror (storageOk : Bool) (q : List QueuedEvent)
    (old : StoredQueue) : StoredQueue :=
  if storageOk then StoredQueue.parsedArray q else old

/-- `initBatchProcessing`'s rehydration step: load `analytics_event_queue`,
`JSON.parse` it, and install it as the queue only when it is an array. -/
def initialQueue (stored : StoredQueue) : List QueuedEvent :=
  match stored with
  | StoredQueue.absent => []
  | StoredQueue.unparseable => []
  | StoredQueue.parsedNonArray => []
  | StoredQueue.parsedArray l => l

/-- The same rehydration with the `try`/`catch` made explicit: a payload
`JSON.parse` throws on is caught (debug log only), so no constructor input
propagates an exception. -/
def initialQueueE (stored : StoredQueue) : Except String (List QueuedEvent) :=
  match stored with
  | StoredQueue.absent => Except.ok []
  | StoredQueue.unparseable =>
      -- `JSON.parse` throws; the surrounding catch swallows the error.
      Except.ok []
  | StoredQueue.parsedNonArray => Except.ok []
  | StoredQueue.parsedArray l => Except.ok l

/-- `createNewSession`, with the generated id, clock, `document.referrer`
and `window.location.pathname` as oracles. -/
def createNewSession (newId : String) (now : Nat)
    (referrer landing : String) : SessionData :=
  { id := newId
    startTime := now
    lastActivity := now
    pageviews := 0
    events := 0
    initialReferrer := referrer
    initialLandingPage := landing }

/-- One firing of the `sessionInterval` callback installed by
`initSessionTracking`: replace the session when
`Date.now() - lastActivity > sessionTimeoutMs`. -/
def sessionCheckTick (s : TrackerState) (now : Nat)
    (newId referrer landing : String) : TrackerState :=
  if sessionTimeoutMs s.options < now - s.sessionData.lastActivity then
    { s with sessionData := createNewSession newId now referrer landing }
  else s

/-- Result of the awaited batch `fetch`. -/
inductive FlushOutcome where
  | success
  | httpNotOk (status : Nat)
  | transportError
deriving DecidableEq, Repr

/-- The body of the source's `try` block up to and including the
`response.ok` check: a transport error is a rejected `fetch`, and a non-ok
response triggers `throw new Error(...)`. Both surface as `Except.error`. -/
def fetchAndCheck (outcome : FlushOutcome) : Except String Unit :=
  match outcome with
  | FlushOutcome.success => Except.ok ()
  | FlushOutcome.httpNotOk st =>
      Except.error ("HTTP error! status: " ++ toString st)
  | FlushOutcome.transportError => Except.error "NetworkError"

/-- Synchronous prefix of `flushEvents` after its guards: set `isSending`,
snapshot the queue into `eventsToSend`, clear the live queue, and (when
offline tracking is enabled) overwrite the mirror with `[]`. Returns the
updated state and the snapshot. -/
def flushBegin (s : TrackerState) (storageOk : Bool) :
    TrackerState × List QueuedEvent :=
  let eventsToSend := s.eventQueue
  let s1 := { s with isSending := true, eventQueue := [] }
  let s2 :=
    if s.options.enableOfflineTracking then
      { s1 with mirror := persistQueueMirror storageOk [] s1.mirror }
    else s1
  (s2, eventsToSend)

/-- Continuation of `flushEvents` after the awaited send: the `catch`
re-queues the snapshot at the front (unless unloading) and re-persists the
mirror, and the `finally` clears `isSending` on every path. -/
def flushFinish (s : TrackerState) (batch : List QueuedEvent)
    (isUnloading : Bool) (outcome : FlushOutcome) (storageOk : Bool) :
    TrackerState :=
  match fetchAndCheck outcome with
  | Except.ok _ => { s with isSending := false }
  | Except.error _ =>
    if isUnloading then { s with isSending := false }
    else
      let s1 := { s with eventQueue := batch ++ s.eventQueue }
      let s2 :=
        if s1.options.enableOfflineTracking then
          { s1 with mirror := persistQueueMirror storageOk s1.eventQueue s1.mirror }
        else s1
      { s2 with isSending := false }

/-- `flushEvents(isUnloading)` run to completion with no interleaved
enqueues, in `Except` form: `Except.error` would mean an exception escapes
the method. The second component records the batch handed to `fetch`
(`none` when the guards short-circuit and no send is issued). -/
def flushEventsE (s : TrackerState) (isUnloading : Bool)
    (outcome : FlushOutcome) (storageOk1 storageOk2 : Bool) :
    Except String (TrackerState × Option (List QueuedEvent)) :=
  if s.connectionStatus = ConnStatus.offline ∧ isUnloading = false then
    Except.ok (s, none)
  else if s.isSending = true ∨ s.eventQueue = [] then
    Except.ok (s, none)
  else
    let p := flushBegin s storageOk1
    Except.ok (flushFinish p.1 p.2 isUnloading outcome storageOk2, some p.2)

/-- `flushEvents` as a total state transformer (the promise always
resolves; `flushEventsE_ok` proves it agrees with `flushEventsE`). -/
def flushEvents (s : TrackerState) (isUnloading : Bool)
    (outcome : FlushOutcome) (storageOk1 storageOk2 : Bool) :
    TrackerState × Option (List QueuedEvent) :=
  if s.connectionStatus = ConnStatus.offline ∧ isUnloading = false then
    (s, none)
  else if s.isSending = true ∨ s.eventQueue = [] then
    (s, none)
  else
    let p := flushBegin s storageOk1
    (flushFinish p.1 p.2 isUnloading outcome storageOk2, some p.2)

/-- Result of a `queueEvent` call: the post-state, whether the sampler
admitted the observation, whether the batch-size threshold fired the
un-awaited `this.flushEvents()` call, and the batch that call sent (if
any). -/
structure QueueEventResult where
  state : TrackerState
  sampled : Bool
  flushTriggered : Bool
  sent : Option (List QueuedEvent)
deriving DecidableEq, Repr

/-- `queueEvent(event, type)`: sampling gate, timestamp stamp, append,
mirror write, then the threshold-triggered flush. The triggered flush's
oracles (`outcome`, `fOk1`, `fOk2`) are consumed only when it actually
runs. -/
def queueEvent (s : TrackerState) (payload : String) (ty : EvType)
    (draw now : Nat) (storageOk : Bool) (outcome : FlushOutcome)
    (fOk1 fOk2 : Bool) : QueueEventResult :=
  if shouldSampleEvent s.options draw = false then
    { state := s, sampled := false, flushTriggered := false, sent := none }
  else
    let item : QueuedEvent := { type := ty, payload := payload, timestamp := now }
    let s1 := { s with eventQueue := s.eventQueue ++ [item] }
    let s2 :=
      if s.options.enableOfflineTracking then
        { s1 with mirror := persistQueueMirror storageOk s1.eventQueue s1.mirror }
      else s1
    if s.options.manualFlush = false ∧ effBatchSize s.options ≤ s2.eventQueue.length then
      let p := flushEvents s2 false outcome fOk1 fOk2
      { state := p.1, sampled := true, flushTriggered := true, sent := p.2 }
    else
      { state := s2, sampled := true, flushTriggered := false, sent := none }

/-- `trackEvent(options)`: bump `sessionData.events`, refresh
`lastActivity` (`updateSession`), then `queueEvent(options, 'event')`. -/
def trackEvent (s : TrackerState) (payload : String) (draw now : Nat)
    (storageOk : Bool) (outcome : FlushOutcome) (fOk1 fOk2 : Bool) :
    QueueEventResult :=
  let sd := { s.sessionData with
                events := s.sessionData.events + 1
                lastActivity := now }
  queueEvent { s with sessionData := sd } payload EvType.event draw now
    storageOk outcome fOk1 fOk2

/-- `trackPageview(options)`: bump `sessionData.pageviews`, refresh
`lastActivity`, then `queueEvent(pageviewData, 'pageview')`. -/
def trackPageview (s : TrackerState) (payload : String) (draw now : Nat)
    (storageOk : Bool) (outcome : FlushOutcome) (fOk1 fOk2 : Bool) :
    QueueEventResult :=
  let sd := { s.sessionData with
                pageviews := s.sessionData.pageviews + 1
                lastActivity := now }
  queueEvent { s with sessionData := sd } payload EvType.pageview draw now
    storageOk outcome fOk1 fOk2

/-- `getQueueStatus()`: length, a copy of the queue (`[...this.eventQueue]`),
connectivity, and `this.options.manualFlush || false`. -/
def getQueueStatus (s : TrackerState) : QueueStatus :=
  { queueLength := s.eventQueue.length
    events := s.eventQueue
    connectionStatus := s.connectionStatus
    manualFlush := s.options.manualFlush }

/-- Oracle bundle for one producer call made while a flush is in flight:
payload, type, sampling draw, clock, and the storage/flush oracles its
`queueEvent` step consumes. -/
structure EnqueueCall where
  payload : String
  ty : EvType
  draw : Nat
  now : Nat
  storageOk : Bool
  outcome : FlushOutcome
  fOk1 : Bool
  fOk2 : Bool
deriving DecidableEq, Repr

/-- Run a sequence of `queueEvent` steps (producer calls interleaved with
an in-flight send). -/
def runEnqueues (s : TrackerState) (cs : List EnqueueCall) : TrackerState :=
  cs.foldl
    (fun st c =>
      (queueEvent st c.payload c.ty c.draw c.now c.storageOk c.outcome
        c.fOk1 c.fOk2).state)
    s

/-- The queued events the sampler admits from a call sequence, in call
order, as they are stamped by `queueEvent`. -/
def admittedEvents (opts : TrackerOptions) (cs : List EnqueueCall) :
    List QueuedEvent :=
  (cs.filter (fun c => shouldSampleEvent opts c.draw)).map
    (fun c => { type := c.ty, payload := c.payload, timestamp := c.now })

/-! ## Basic lemmas about the flush phases -/

theorem flushBegin_snd (s : TrackerState) (k1 : Bool) :
    (flushBegin s k1).2 = s.eventQueue := rfl

theorem flushBegin_fst (s : TrackerState) (k1 : Bool) :
    (flushBegin s k1).1 =
      { s with
        isSending := true
        eventQueue := []
        mirror :=
          if s.options.enableOfflineTracking then
            persistQueueMirror k1 [] s.mirror
          else s.mirror } := by
  by_cases h : s.options.enableOfflineTracking <;> simp [flushBegin, h]

theorem flushFinish_success (s : TrackerState) (batch : List QueuedEvent)
    (u : Bool) (k2 : Bool) :
    flushFinish s batch u FlushOutcome.success k2 = { s with isSending := false } := rfl

theorem flushFinish_failure (s : TrackerState) (batch : List QueuedEvent)
    (o : FlushOutcome) (k2 : Bool) (ho : o ≠ FlushOutcome.success) :
    flushFinish s batch false o k2 =
      { s with
        eventQueue := batch ++ s.eventQueue
        mirror :=
          if s.options.enableOfflineTracking then
            persistQueueMirror k2 (batch ++ s.eventQueue) s.mirror
          else s.mirror
        isSending := false } := by
  cases o with
  | success => exact absurd rfl ho
  | httpNotOk st =>
      by_cases h : s.options.enableOfflineTracking <;>
        simp [flushFinish, fetchAndCheck, h]
  | transportError =>
      by_cases h : s.options.enableOfflineTracking <;>
        simp [flushFinish, fetchAndCheck, h]

theorem flushFinish_isSending (s : TrackerState) (batch : List QueuedEvent)
    (u : Bool) (o : FlushOutcome) (k2 : Bool) :
    (flushFinish s batch u o k2).isSending = false := by
  unfold flushFinish
  cases fetchAndCheck o with
  | ok _ => rfl
  | error _ =>
      by_cases hu : u <;> by_cases h : s.options.enableOfflineTracking <;>
        simp [hu, h]

/-- The in-flight guard: a flush started while `isSending` is set is a
complete no-op and issues no send. -/
theorem flushEvents_of_isSending (s : TrackerState) (u : Bool)
    (o : FlushOutcome) (k1 k2 : Bool) (h : s.isSending = true) :
    flushEvents s u o k1 k2 = (s, none) := by
  simp [flushEvents, h]

/-- The empty-queue guard. -/
theorem flushEvents_of_empty (s : TrackerState) (u : Bool)
    (o : FlushOutcome) (k1 k2 : Bool) (h : s.eventQueue = []) :
    flushEvents s u o k1 k2 = (s, none) := by
  simp [flushEvents, h]

/-- When all three guards pass, `flushEvents` runs `flushBegin` and then
`flushFinish` on the full snapshot, and the snapshot is handed to `fetch`. -/
theorem flushEvents_run (s : TrackerState) (u : Bool) (o : FlushOutcome)
    (k1 k2 : Bool) (h1 : s.connectionStatus = ConnStatus.offline → u = true)
    (h2 : s.isSending = false) (h3 : s.eventQueue ≠ []) :
    flushEvents s u o k1 k2 =
      (flushFinish (flushBegin s k1).1 s.eventQueue u o k2, some s.eventQueue) := by
  unfold flushEvents
  rw [if_neg, if_neg]
  · rfl
  · simp [h2, h3]
  · intro hc
    exact absurd (h1 hc.1) (by simp [hc.2])

/-- `flushEventsE` and `flushEvents` agree: the `Except` layer only records
that no exception escapes. -/
theorem flushEventsE_ok (s : TrackerState) (u : Bool) (o : FlushOutcome)
    (k1 k2 : Bool) :
    flushEventsE s u o k1 k2 = Except.ok (flushEvents s u o k1 k2) := by
  unfold flushEvents flushEventsE
  split
  · rfl
  · split <;> rfl

/-! ## Frame lemmas: fields the operations never touch -/

theorem flushFinish_frame (s : TrackerState) (batch : List QueuedEvent)
    (u : Bool) (o : FlushOutcome) (k2 : Bool) :
    (flushFinish s batch u o k2).options = s.options ∧
    (flushFinish s batch u o k2).connectionStatus = s.connectionStatus ∧
    (flushFinish s batch u o k2).sessionData = s.sessionData ∧
    (flushFinish s batch u o k2).userId = s.userId := by
  cases o <;> by_cases hu : u = true <;>
    by_cases h : s.options.enableOfflineTracking = true <;>
    simp [flushFinish, fetchAndCheck, hu, h]

theorem flushEvents_fst_frame (s : TrackerState) (u : Bool) (o : FlushOutcome)
    (k1 k2 : Bool) :
    (flushEvents s u o k1 k2).1.options = s.options ∧
    (flushEvents s u o k1 k2).1.connectionStatus = s.connectionStatus ∧
    (flushEvents s u o k1 k2).1.sessionData = s.sessionData ∧
    (flushEvents s u o k1 k2).1.userId = s.userId := by
  unfold flushEvents
  split
  · exact ⟨rfl, rfl, rfl, rfl⟩
  · split
    · exact ⟨rfl, rfl, rfl, rfl⟩
    · refine ⟨?_, ?_, ?_, ?_⟩
      · rw [(flushFinish_frame _ _ u o k2).1, flushBegin_fst]
      · rw [(flushFinish_frame _ _ u o k2).2.1, flushBegin_fst]
      · rw [(flushFinish_frame _ _ u o k2).2.2.1, flushBegin_fst]
      · rw [(flushFinish_frame _ _ u o k2).2.2.2, flushBegin_fst]

theorem queueEvent_state_frame (s : TrackerState) (p : String) (ty : EvType)
    (d n : Nat) (sOk : Bool) (o : FlushOutcome) (k1 k2 : Bool) :
    (queueEvent s p ty d n sOk o k1 k2).state.options = s.options ∧
    (queueEvent s p ty d n sOk o k1 k2).state.connectionStatus = s.connectionStatus ∧
    (queueEvent s p ty d n sOk o k1 k2).state.sessionData = s.sessionData ∧
    (queueEvent s p ty d n sOk o k1 k2).state.userId = s.userId := by
  unfold queueEvent
  split
  · exact ⟨rfl, rfl, rfl, rfl⟩
  · dsimp only
    split <;> split <;>
      first
        | exact ⟨rfl, rfl, rfl, rfl⟩
        | exact ⟨(flushEvents_fst_frame _ false o k1 k2).1,
            (flushEvents_fst_frame _ false o k1 k2).2.1,
            (flushEvents_fst_frame _ false o k1 k2).2.2.1,
            (flushEvents_fst_frame _ false o k1 k2).2.2.2⟩

/-! ## Enqueues while a send is in flight -/

/-- A `queueEvent` while `isSending` is set: the threshold-triggered
`flushEvents()` call is a no-op, so the step only appends the admitted
item and refreshes the mirror. -/
theorem queueEvent_during_send (s : TrackerState) (p : String) (ty : EvType)
    (d n : Nat) (sOk : Bool) (o : FlushOutcome) (k1 k2 : Bool)
    (h : s.isSending = true) :
    (queueEvent s p ty d n sOk o k1 k2).state =
      if shouldSampleEvent s.options d = false then s
      else
        { s with
          eventQueue :=
            s.eventQueue ++ [{ type := ty, payload := p, timestamp := n }]
          mirror :=
            if s.options.enableOfflineTracking then
              persistQueueMirror sOk
                (s.eventQueue ++ [{ type := ty, payload := p, timestamp := n }])
                s.mirror
            else s.mirror } := by
  unfold queueEvent
  split
  · rfl
  · dsimp only
    split <;> split <;>
      first
        | rfl
        | (rw [flushEvents_of_isSending]
           exact h)

theorem runEnqueues_nil (s : TrackerState) : runEnqueues s [] = s := rfl

theorem runEnqueues_cons (s : TrackerState) (c : EnqueueCall)
    (cs : List EnqueueCall) :
    runEnqueues s (c :: cs) =
      runEnqueues
        (queueEvent s c.payload c.ty c.draw c.now c.storageOk c.outcome
          c.fOk1 c.fOk2).state cs := rfl

theorem admittedEvents_cons (opts : TrackerOptions) (c : EnqueueCall)
    (cs : List EnqueueCall) :
    admittedEvents opts (c :: cs) =
      (if shouldSampleEvent opts c.draw then
        [{ type := c.ty, payload := c.payload, timestamp := c.now }]
      else []) ++ admittedEvents opts cs := by
  by_cases hc : shouldSampleEvent opts c.draw <;>
    simp [admittedEvents, List.filter_cons, hc]

/-- Producer calls made while a send is in flight append exactly the
admitted observations, in call order, to the (freshly cleared) live queue,
and touch neither the in-flight flag, the options, the connectivity state
nor the session. -/
theorem runEnqueues_during_send (s : TrackerState) (cs : List EnqueueCall)
    (h : s.isSending = true) :
    (runEnqueues s cs).eventQueue = s.eventQueue ++ admittedEvents s.options cs ∧
    (runEnqueues s cs).isSending = true ∧
    (runEnqueues s cs).options = s.options ∧
    (runEnqueues s cs).connectionStatus = s.connectionStatus ∧
    (runEnqueues s cs).sessionData = s.sessionData := by
  induction cs generalizing s with
  | nil => simp [runEnqueues_nil, admittedEvents, h]
  | cons c cs ih =>
    rw [runEnqueues_cons, admittedEvents_cons]
    have hstep := queueEvent_during_send s c.payload c.ty c.draw c.now
      c.storageOk c.outcome c.fOk1 c.fOk2 h
    by_cases hadm : shouldSampleEvent s.options c.draw = false
    · rw [if_pos hadm] at hstep
      rw [hstep]
      have hres := ih s h
      refine ⟨?_, hres.2.1, hres.2.2.1, hres.2.2.2.1, hres.2.2.2.2⟩
      rw [hres.1]
      simp [hadm]
    · rw [if_neg hadm] at hstep
      have hadm' : shouldSampleEvent s.options c.draw = true := by
        revert hadm
        cases shouldSampleEvent s.options c.draw <;> simp
      rw [hstep]
      have hres := ih
        { s with
          eventQueue :=
            s.eventQueue ++ [{ type := c.ty, payload := c.payload, timestamp := c.now }]
          mirror :=
            if s.options.enableOfflineTracking then
              persistQueueMirror c.storageOk
                (s.eventQueue ++ [{ type := c.ty, payload := c.payload, timestamp := c.now }])
                s.mirror
            else s.mirror } h
      refine ⟨?_, hres.2.1, hres.2.2.1, hres.2.2.2.1, hres.2.2.2.2⟩
      rw [hres.1]
      simp [hadm']

/-! ## Concrete fixtures for the witness theorems -/

def ev (i : Nat) : QueuedEvent :=
  { type := EvType.event
    payload := "e" ++ toString i
    timestamp := 1000 + i }

def testOptions : TrackerOptions :=
  { siteId := "s1" }

def testSession : SessionData :=
  { id := "sess-1"
    startTime := 0
    lastActivity := 0
    pageviews := 0
    events := 0
    initialReferrer := ""
    initialLandingPage := "" }

def testState : TrackerState :=
  { options := testOptions
    userId := "u1"
    sessionData := testSession
    eventQueue := [ev 1, ev 2]
    isSending := false
    connectionStatus := ConnStatus.online
    mirror := StoredQueue.parsedArray [ev 1, ev 2] }

/-! ## The claims -/

/-- C2: in every tracker state with a flush in flight (`isSending = true`),
a further `flushEvents` call returns without issuing a network send and
without changing the state, so at most one batch send is outstanding. -/
theorem claim_c2_single_inflight_send (s : TrackerState) (u : Bool)
    (o : FlushOutcome) (k1 k2 : Bool) (h : s.isSending = true) :
    flushEvents s u o k1 k2 = (s, none) :=
  flushEvents_of_isSending s u o k1 k2 h

/-- Witness for C2 at a concrete in-flight state. -/
theorem claim_c2_single_inflight_send_witness :
    ({ testState with isSending := true } : TrackerState).isSending = true ∧
    flushEvents { testState with isSending := true } false
        FlushOutcome.transportError true true =
      ({ testState with isSending := true }, none) :=
  ⟨rfl,
    claim_c2_single_inflight_send { testState with isSending := true } false
      FlushOutcome.transportError true true rfl⟩

/-- C5: while offline, a non-unloading flush issues no send and leaves the
whole state (queue and mirror included) unchanged; an unloading flush with
a non-empty queue and no flush in flight hands the full queue to the
network regardless of connectivity. -/
theorem claim_c5_offline_gating (s : TrackerState) (o o2 : FlushOutcome)
    (k1 k2 m1 m2 : Bool)
    (hoff : s.connectionStatus = ConnStatus.offline)
    (hne : s.eventQueue ≠ []) (hsend : s.isSending = false) :
    flushEvents s false o k1 k2 = (s, none) ∧
    (flushEvents s true o2 m1 m2).2 = some s.eventQueue := by
  constructor
  · simp [flushEvents, hoff]
  · rw [flushEvents_run s true o2 m1 m2 (fun _ => rfl) hsend hne]

def offlineState : TrackerState :=
  { testState with connectionStatus := ConnStatus.offline }

/-- Witness for C5 at a concrete offline state with a non-empty queue. -/
theorem claim_c5_offline_gating_witness :
    offlineState.connectionStatus = ConnStatus.offline ∧
    offlineState.eventQueue ≠ [] ∧
    offlineState.isSending = false ∧
    flushEvents offlineState false FlushOutcome.success true true =
      (offlineState, none) ∧
    (flushEvents offlineState true FlushOutcome.success true true).2 =
      some offlineState.eventQueue := by
  have h := claim_c5_offline_gating offlineState FlushOutcome.success
    FlushOutcome.success true true true true rfl (by decide) rfl
  exact ⟨rfl, by decide, rfl, h.1, h.2⟩

/-- C6: on construction the queue rehydrates from the durable mirror — a
payload parsing to an array becomes the initial queue unchanged, a corrupt
(unparseable) or non-array payload yields an empty queue, and no mirror
contents make rehydration throw. -/
theorem claim_c6_rehydrate_total (l : List QueuedEvent) :
    initialQueue (StoredQueue.parsedArray l) = l ∧
    initialQueue StoredQueue.unparseable = [] ∧
    initialQueue StoredQueue.parsedNonArray = [] ∧
    initialQueue StoredQueue.absent = [] ∧
    ∀ stored : StoredQueue, initialQueueE stored = Except.ok (initialQueue stored) := by
  refine ⟨rfl, rfl, rfl, rfl, fun stored => ?_⟩
  cases stored <;> rfl

/-- C7: when a flush passes its guards and offline persistence is enabled,
the engine snapshots the whole queue, clears the live queue and overwrites
the durable mirror with the empty array in the synchronous prefix
(`flushBegin`) — strictly before the send outcome is consumed — so a crash
in that window rehydrates to an empty queue; the send then carries the
full snapshot. -/
theorem claim_c7_persist_empty_before_send (s : TrackerState) (u : Bool)
    (o : FlushOutcome) (k2 : Bool)
    (h1 : s.connectionStatus = ConnStatus.offline → u = true)
    (h2 : s.isSending = false) (h3 : s.eventQueue ≠ [])
    (hoff : s.options.enableOfflineTracking = true) :
    (flushBegin s true).2 = s.eventQueue ∧
    (flushBegin s true).1.eventQueue = [] ∧
    (flushBegin s true).1.mirror = StoredQueue.parsedArray [] ∧
    initialQueue (flushBegin s true).1.mirror = [] ∧
    flushEvents s u o true k2 =
      (flushFinish (flushBegin s true).1 s.eventQueue u o k2, some s.eventQueue) := by
  refine ⟨rfl, ?_, ?_, ?_, flushEvents_run s u o true k2 h1 h2 h3⟩
  · rw [flushBegin_fst]
  · rw [flushBegin_fst]
    simp [hoff, persistQueueMirror]
  · rw [flushBegin_fst]
    simp [hoff, persistQueueMirror, initialQueue]

/-- Witness for C7 at a concrete online state with two queued events. -/
theorem claim_c7_persist_empty_before_send_witness :
    testState.isSending = false ∧
    testState.eventQueue ≠ [] ∧
    testState.options.enableOfflineTracking = true ∧
    ((flushBegin testState true).2 = testState.eventQueue ∧
     (flushBegin testState true).1.eventQueue = [] ∧
     (flushBegin testState true).1.mirror = StoredQueue.parsedArray [] ∧
     initialQueue (flushBegin testState true).1.mirror = [] ∧
     flushEvents testState false FlushOutcome.success true true =
       (flushFinish (flushBegin testState true).1 testState.eventQueue false
         FlushOutcome.success true, some testState.eventQueue)) := by
  refine ⟨rfl, by decide, rfl, ?_⟩
  exact claim_c7_persist_empty_before_send testState false FlushOutcome.success
    true (fun hc => by cases hc) rfl (by decide) rfl

/-- C10: for every tracker state, unloading flag, storage behaviour and
network outcome, the `flushEvents` promise resolves: the `Except` model of
the method body never propagates an error. -/
theorem claim_c10_flush_always_resolves (s : TrackerState) (u : Bool)
    (o : FlushOutcome) (k1 k2 : Bool) :
    ∃ p : TrackerState × Option (List QueuedEvent),
      flushEventsE s u o k1 k2 = Except.ok p :=
  ⟨flushEvents s u o k1 k2, flushEventsE_ok s u o k1 k2⟩

/-- C1: when a non-unloading flush of the non-empty snapshot `B` fails
(transport error or non-ok response) while the calls `cs` were enqueued
during the in-flight send, the `catch` puts `B` back at the front of the
live queue ahead of the admitted events of `cs`, preserving order, and the
next flush delivers `B ++ C1..Ck` with `B` first. -/
theorem claim_c1_failed_batch_requeued_in_front (s : TrackerState)
    (cs : List EnqueueCall) (o o2 : FlushOutcome) (k1 k2 m1 m2 : Bool)
    (hconn : s.connectionStatus = ConnStatus.online)
    (hsend : s.isSending = false) (hne : s.eventQueue ≠ [])
    (hfail : o ≠ FlushOutcome.success) :
    flushEvents s false o k1 k2 =
      (flushFinish (flushBegin s k1).1 s.eventQueue false o k2, some s.eventQueue) ∧
    (flushBegin s k1).2 = s.eventQueue ∧
    (flushFinish (runEnqueues (flushBegin s k1).1 cs) (flushBegin s k1).2
        false o k2).eventQueue = s.eventQueue ++ admittedEvents s.options cs ∧
    (flushFinish (runEnqueues (flushBegin s k1).1 cs) (flushBegin s k1).2
        false o k2).isSending = false ∧
    (flushEvents (flushFinish (runEnqueues (flushBegin s k1).1 cs)
        (flushBegin s k1).2 false o k2) false o2 m1 m2).2 =
      some (s.eventQueue ++ admittedEvents s.options cs) := by
  have hs1 : (flushBegin s k1).1.isSending = true := by rw [flushBegin_fst]
  have hrun := runEnqueues_during_send (flushBegin s k1).1 cs hs1
  have hq2 : (runEnqueues (flushBegin s k1).1 cs).eventQueue =
      admittedEvents s.options cs := by
    rw [hrun.1, flushBegin_fst]
    simp
  have hfin := flushFinish_failure (runEnqueues (flushBegin s k1).1 cs)
    (flushBegin s k1).2 o k2 hfail
  have hq3 : (flushFinish (runEnqueues (flushBegin s k1).1 cs)
      (flushBegin s k1).2 false o k2).eventQueue =
      s.eventQueue ++ admittedEvents s.options cs := by
    rw [hfin]
    show (flushBegin s k1).2 ++ (runEnqueues (flushBegin s k1).1 cs).eventQueue =
      s.eventQueue ++ admittedEvents s.options cs
    rw [flushBegin_snd, hq2]
  have hconn3 : (flushFinish (runEnqueues (flushBegin s k1).1 cs)
      (flushBegin s k1).2 false o k2).connectionStatus = ConnStatus.online := by
    rw [(flushFinish_frame _ _ false o k2).2.1, hrun.2.2.2.1, flushBegin_fst]
    exact hconn
  refine ⟨flushEvents_run s false o k1 k2
      (fun hc => absurd (hconn.symm.trans hc) (by simp)) hsend hne,
    rfl, hq3, flushFinish_isSending _ _ false o k2, ?_⟩
  have hne3 : (flushFinish (runEnqueues (flushBegin s k1).1 cs)
      (flushBegin s k1).2 false o k2).eventQueue ≠ [] := by
    rw [hq3]
    intro hc
    exact hne (List.append_eq_nil.mp hc).1
  rw [flushEvents_run _ false o2 m1 m2
    (fun hc => absurd (hconn3.symm.trans hc) (by simp))
    (flushFinish_isSending _ _ false o k2) hne3]
  rw [hq3]

def c1Calls : List EnqueueCall :=
  [ { payload := "c1"
      ty := EvType.event
      draw := 0
      now := 2000
      storageOk := true
      outcome := FlushOutcome.success
      fOk1 := true
      fOk2 := true },
    { payload := "c2"
      ty := EvType.pageview
      draw := 0
      now := 2001
      storageOk := true
      outcome := FlushOutcome.success
      fOk1 := true
      fOk2 := true } ]

/-- Witness for C1: a failed flush of `[e1, e2]` with two events enqueued
mid-flight leaves the queue `[e1, e2, c1, c2]` and the next flush sends it. -/
theorem claim_c1_failed_batch_requeued_in_front_witness :
    testState.connectionStatus = ConnStatus.online ∧
    testState.isSending = false ∧
    testState.eventQueue ≠ [] ∧
    FlushOutcome.transportError ≠ FlushOutcome.success ∧
    (flushEvents testState false FlushOutcome.transportError true true =
      (flushFinish (flushBegin testState true).1 testState.eventQueue false
        FlushOutcome.transportError true, some testState.eventQueue) ∧
     (flushBegin testState true).2 = testState.eventQueue ∧
     (flushFinish (runEnqueues (flushBegin testState true).1 c1Calls)
         (flushBegin testState true).2 false FlushOutcome.transportError
         true).eventQueue =
       testState.eventQueue ++ admittedEvents testState.options c1Calls ∧
     (flushFinish (runEnqueues (flushBegin testState true).1 c1Calls)
         (flushBegin testState true).2 false FlushOutcome.transportError
         true).isSending = false ∧
     (flushEvents (flushFinish (runEnqueues (flushBegin testState true).1 c1Calls)
         (flushBegin testState true).2 false FlushOutcome.transportError true)
         false FlushOutcome.success true true).2 =
       some (testState.eventQueue ++ admittedEvents testState.options c1Calls)) := by
  refine ⟨rfl, rfl, by decide, by decide, ?_⟩
  exact claim_c1_failed_batch_requeued_in_front testState c1Calls
    FlushOutcome.transportError FlushOutcome.success true true true true
    rfl rfl (by decide) (by decide)

def c3State : TrackerState :=
  { testState with options := { testOptions with samplingRate := 0 } }

/-- C3 counterexample: with `samplingRate = 0` both `trackEvent` and
`trackPageview` reject the observation, yet each call has already
incremented its session counter and refreshed `lastActivity`, because the
session update precedes the sampling check in the source. -/
theorem claim_c3_counterexample :
    (trackEvent c3State "x" 50 999 true FlushOutcome.success true true).sampled = false ∧
    (trackEvent c3State "x" 50 999 true FlushOutcome.success true true).state.sessionData.events ≠
      c3State.sessionData.events ∧
    (trackEvent c3State "x" 50 999 true FlushOutcome.success true true).state.sessionData.lastActivity ≠
      c3State.sessionData.lastActivity ∧
    (trackPageview c3State "/p" 50 999 true FlushOutcome.success true true).sampled = false ∧
    (trackPageview c3State "/p" 50 999 true FlushOutcome.success true true).state.sessionData.pageviews ≠
      c3State.sessionData.pageviews ∧
    (trackPageview c3State "/p" 50 999 true FlushOutcome.success true true).state.sessionData.lastActivity ≠
      c3State.sessionData.lastActivity := by decide

/-- C3 (amended): an observation rejected by the sampler leaves the event
queue and the durable queue mirror unchanged and triggers no flush — but
`trackEvent` still increments the session event counter and `trackPageview`
the pageview counter, and both refresh `lastActivity`, because the session
update runs before the sampling check. -/
theorem claim_c3_rejected_observation_effects (s : TrackerState) (p pv : String)
    (d n : Nat) (sOk : Bool) (o : FlushOutcome) (k1 k2 : Bool)
    (h : shouldSampleEvent s.options d = false) :
    (trackEvent s p d n sOk o k1 k2).sampled = false ∧
    (trackEvent s p d n sOk o k1 k2).state.eventQueue = s.eventQueue ∧
    (trackEvent s p d n sOk o k1 k2).state.mirror = s.mirror ∧
    (trackEvent s p d n sOk o k1 k2).flushTriggered = false ∧
    (trackEvent s p d n sOk o k1 k2).sent = none ∧
    (trackEvent s p d n sOk o k1 k2).state =
      { s with sessionData := { s.sessionData with
          events := s.sessionData.events + 1
          lastActivity := n } } ∧
    (trackPageview s pv d n sOk o k1 k2).sampled = false ∧
    (trackPageview s pv d n sOk o k1 k2).state.eventQueue = s.eventQueue ∧
    (trackPageview s pv d n sOk o k1 k2).state.mirror = s.mirror ∧
    (trackPageview s pv d n sOk o k1 k2).flushTriggered = false ∧
    (trackPageview s pv d n sOk o k1 k2).sent = none ∧
    (trackPageview s pv d n sOk o k1 k2).state =
      { s with sessionData := { s.sessionData with
          pageviews := s.sessionData.pageviews + 1
          lastActivity := n } } := by
  unfold trackEvent trackPageview queueEvent
  rw [if_pos, if_pos]
  · exact ⟨rfl, rfl, rfl, rfl, rfl, rfl, rfl, rfl, rfl, rfl, rfl, rfl⟩
  · exact h
  · exact h

/-- Witness for the amended C3 at a concrete `samplingRate = 0` state. -/
theorem claim_c3_rejected_observation_effects_witness :
    shouldSampleEvent c3State.options 50 = false ∧
    ((trackEvent c3State "x" 50 999 true FlushOutcome.success true true).sampled = false ∧
     (trackEvent c3State "x" 50 999 true FlushOutcome.success true true).state.eventQueue =
       c3State.eventQueue ∧
     (trackEvent c3State "x" 50 999 true FlushOutcome.success true true).state.mirror =
       c3State.mirror ∧
     (trackEvent c3State "x" 50 999 true FlushOutcome.success true true).flushTriggered = false ∧
     (trackEvent c3State "x" 50 999 true FlushOutcome.success true true).sent = none ∧
     (trackEvent c3State "x" 50 999 true FlushOutcome.success true true).state =
       { c3State with sessionData := { c3State.sessionData with
           events := c3State.sessionData.events + 1
           lastActivity := 999 } } ∧
     (trackPageview c3State "/p" 50 999 true FlushOutcome.success true true).sampled = false ∧
     (trackPageview c3State "/p" 50 999 true FlushOutcome.success true true).state.eventQueue =
       c3State.eventQueue ∧
     (trackPageview c3State "/p" 50 999 true FlushOutcome.success true true).state.mirror =
       c3State.mirror ∧
     (trackPageview c3State "/p" 50 999 true FlushOutcome.success true true).flushTriggered = false ∧
     (trackPageview c3State "/p" 50 999 true FlushOutcome.success true true).sent = none ∧
     (trackPageview c3State "/p" 50 999 true FlushOutcome.success true true).state =
       { c3State with sessionData := { c3State.sessionData with
           pageviews := c3State.sessionData.pageviews + 1
           lastActivity := 999 } }) :=
  ⟨rfl, claim_c3_rejected_observation_effects c3State "x" "/p" 50 999 true
    FlushOutcome.success true true rfl⟩

theorem trackEvent_state_sessionData (s : TrackerState) (p : String)
    (d n : Nat) (sOk : Bool) (o : FlushOutcome) (k1 k2 : Bool) :
    (trackEvent s p d n sOk o k1 k2).state.sessionData =
      { s.sessionData with
        events := s.sessionData.events + 1
        lastActivity := n } := by
  unfold trackEvent
  exact (queueEvent_state_frame _ p EvType.event d n sOk o k1 k2).2.2.1

/-- C4: with `sessionTimeout = 30` minutes, an admitted observation 29
minutes after `lastActivity` (the periodic timeout check having just run)
keeps the current session id, while one 31 minutes after `lastActivity` —
the periodic check having fired and found the session expired — runs in a
fresh session whose id is the newly generated one and whose counters
reflect only the new observation. -/
theorem claim_c4_session_timeout_boundary (s : TrackerState)
    (newId r lp p : String) (d : Nat) (sOk : Bool) (o : FlushOutcome)
    (k1 k2 : Bool) (h30 : s.options.sessionTimeout = 30)
    (hadm : shouldSampleEvent s.options d = true)
    (hid : newId ≠ s.sessionData.id) :
    (trackEvent (sessionCheckTick s (s.sessionData.lastActivity + 29 * 60000) newId r lp)
        p d (s.sessionData.lastActivity + 29 * 60000) sOk o k1 k2).state.sessionData.id =
      s.sessionData.id ∧
    (trackEvent (sessionCheckTick s (s.sessionData.lastActivity + 31 * 60000) newId r lp)
        p d (s.sessionData.lastActivity + 31 * 60000) sOk o k1 k2).state.sessionData.id =
      newId ∧
    (trackEvent (sessionCheckTick s (s.sessionData.lastActivity + 31 * 60000) newId r lp)
        p d (s.sessionData.lastActivity + 31 * 60000) sOk o k1 k2).state.sessionData.id ≠
      s.sessionData.id ∧
    (trackEvent (sessionCheckTick s (s.sessionData.lastActivity + 31 * 60000) newId r lp)
        p d (s.sessionData.lastActivity + 31 * 60000) sOk o k1 k2).state.sessionData.events =
      1 ∧
    (trackEvent (sessionCheckTick s (s.sessionData.lastActivity + 31 * 60000) newId r lp)
        p d (s.sessionData.lastActivity + 31 * 60000) sOk o k1 k2).state.sessionData.pageviews =
      0 := by
  have hms : sessionTimeoutMs s.options = 1800000 := by
    simp [sessionTimeoutMs, h30]
  have h29 : sessionCheckTick s (s.sessionData.lastActivity + 29 * 60000) newId r lp = s := by
    unfold sessionCheckTick
    rw [if_neg]
    rw [hms, Nat.add_sub_cancel_left]
    decide
  have h31 : sessionCheckTick s (s.sessionData.lastActivity + 31 * 60000) newId r lp =
      { s with sessionData :=
          createNewSession newId (s.sessionData.lastActivity + 31 * 60000) r lp } := by
    unfold sessionCheckTick
    rw [if_pos]
    rw [hms, Nat.add_sub_cancel_left]
    decide
  refine ⟨?_, ?_, ?_, ?_, ?_⟩
  · rw [h29, trackEvent_state_sessionData]
  · rw [h31, trackEvent_state_sessionData]
    simp [createNewSession]
  · rw [h31, trackEvent_state_sessionData]
    simp [createNewSession]
    exact hid
  · rw [h31, trackEvent_state_sessionData]
    simp [createNewSession]
  · rw [h31, trackEvent_state_sessionData]
    simp [createNewSession]

/-- Witness for C4 at a concrete session with `lastActivity = 0`. -/
theorem claim_c4_session_timeout_boundary_witness :
    testState.options.sessionTimeout = 30 ∧
    shouldSampleEvent testState.options 5 = true ∧
    "sess-2" ≠ testState.sessionData.id ∧
    ((trackEvent (sessionCheckTick testState (testState.sessionData.lastActivity + 29 * 60000)
         "sess-2" "ref" "/land") "pv" 5 (testState.sessionData.lastActivity + 29 * 60000)
         true FlushOutcome.success true true).state.sessionData.id =
       testState.sessionData.id ∧
     (trackEvent (sessionCheckTick testState (testState.sessionData.lastActivity + 31 * 60000)
         "sess-2" "ref" "/land") "pv" 5 (testState.sessionData.lastActivity + 31 * 60000)
         true FlushOutcome.success true true).state.sessionData.id = "sess-2" ∧
     (trackEvent (sessionCheckTick testState (testState.sessionData.lastActivity + 31 * 60000)
         "sess-2" "ref" "/land") "pv" 5 (testState.sessionData.lastActivity + 31 * 60000)
         true FlushOutcome.success true true).state.sessionData.id ≠
       testState.sessionData.id ∧
     (trackEvent (sessionCheckTick testState (testState.sessionData.lastActivity + 31 * 60000)
         "sess-2" "ref" "/land") "pv" 5 (testState.sessionData.lastActivity + 31 * 60000)
         true FlushOutcome.success true true).state.sessionData.events = 1 ∧
     (trackEvent (sessionCheckTick testState (testState.sessionData.lastActivity + 31 * 60000)
         "sess-2" "ref" "/land") "pv" 5 (testState.sessionData.lastActivity + 31 * 60000)
         true FlushOutcome.success true true).state.sessionData.pageviews = 0) :=
  ⟨rfl, rfl, by decide,
    claim_c4_session_timeout_boundary testState "sess-2" "ref" "/land" "pv" 5
      true FlushOutcome.success true true rfl rfl (by decide)⟩

/-- C8: with manual-flush mode off, an admitted enqueue that brings the
buffer length to at least `batchSize` triggers an immediate flush (without
waiting for the timer), and — online with no flush in flight — that flush
sends the whole buffer. -/
theorem claim_c8_threshold_triggers_flush (s : TrackerState) (p : String)
    (d n : Nat) (sOk : Bool) (o : FlushOutcome) (k1 k2 : Bool)
    (hman : s.options.manualFlush = false)
    (hadm : shouldSampleEvent s.options d = true)
    (hth : effBatchSize s.options ≤ s.eventQueue.length + 1)
    (hconn : s.connectionStatus = ConnStatus.online)
    (hsend : s.isSending = false) :
    (trackEvent s p d n sOk o k1 k2).flushTriggered = true ∧
    (trackEvent s p d n sOk o k1 k2).sent =
      some (s.eventQueue ++ [{ type := EvType.event, payload := p, timestamp := n }]) := by
  unfold trackEvent queueEvent
  rw [if_neg (by simp [hadm])]
  dsimp only
  rw [if_pos]
  · split
    · rw [flushEvents_run]
      · exact ⟨rfl, rfl⟩
      · intro hc
        exact absurd (hconn.symm.trans hc) (by simp)
      · exact hsend
      · simp
    · rw [flushEvents_run]
      · exact ⟨rfl, rfl⟩
      · intro hc
        exact absurd (hconn.symm.trans hc) (by simp)
      · exact hsend
      · simp
  · refine ⟨hman, ?_⟩
    split <;> simpa using hth

def c8State : TrackerState :=
  { testState with options := { testOptions with batchSize := 3 } }

/-- Witness for C8: with `batchSize = 3` and two queued events, the third
admitted `trackEvent` call triggers a send of all three events. -/
theorem claim_c8_threshold_triggers_flush_witness :
    c8State.options.manualFlush = false ∧
    shouldSampleEvent c8State.options 5 = true ∧
    effBatchSize c8State.options ≤ c8State.eventQueue.length + 1 ∧
    c8State.connectionStatus = ConnStatus.online ∧
    c8State.isSending = false ∧
    ((trackEvent c8State "e3" 5 3000 true FlushOutcome.success true true).flushTriggered = true ∧
     (trackEvent c8State "e3" 5 3000 true FlushOutcome.success true true).sent =
       some (c8State.eventQueue ++
         [{ type := EvType.event, payload := "e3", timestamp := 3000 }])) :=
  ⟨rfl, rfl, by decide, rfl, rfl,
    claim_c8_threshold_triggers_flush c8State "e3" 5 3000 true
      FlushOutcome.success true true rfl rfl (by decide) rfl rfl⟩

/-! ## A small reference model for the array copy in `getQueueStatus`

JS arrays are heap references; `events: [...this.eventQueue]` allocates a
fresh array holding the same elements. To state that the returned status
holds no live reference to the internal buffer, arrays are modelled as
indices into a store of array contents. -/

structure ArrayStore where
  arrays : List (List QueuedEvent)
deriving DecidableEq, Repr

/-- Dereference an array handle. -/
def ArrayStore.read (st : ArrayStore) (r : Nat) : List QueuedEvent :=
  st.arrays.getD r []

/-- Mutate the array behind a handle in place (what a caller writing into
the returned `events` array would do). -/
def ArrayStore.write (st : ArrayStore) (r : Nat) (v : List QueuedEvent) :
    ArrayStore :=
  { arrays := st.arrays.set r v }

/-- Allocate a fresh array, returning the new store and the new handle. -/
def ArrayStore.alloc (st : ArrayStore) (v : List QueuedEvent) :
    ArrayStore × Nat :=
  ({ arrays := st.arrays ++ [v] }, st.arrays.length)

/-- `[...this.eventQueue]` in `getQueueStatus`: allocate a fresh array with
the same contents as the array behind `queueRef`. -/
def statusEventsCopy (st : ArrayStore) (queueRef : Nat) : ArrayStore × Nat :=
  st.alloc (st.read queueRef)

/-- C9: `getQueueStatus` returns a point-in-time structural copy — length,
the queued events in order, connectivity and the manual-flush flag — and
the `events` array is a fresh allocation, not the internal buffer: writing
through the returned handle leaves the internal queue unchanged. -/
theorem claim_c9_status_is_copy (s : TrackerState) (st : ArrayStore)
    (r : Nat) (v : List QueuedEvent) (hr : r < st.arrays.length)
    (hv : st.read r = s.eventQueue) :
    getQueueStatus s =
      { queueLength := s.eventQueue.length
        events := s.eventQueue
        connectionStatus := s.connectionStatus
        manualFlush := s.options.manualFlush } ∧
    (statusEventsCopy st r).2 ≠ r ∧
    (statusEventsCopy st r).1.read (statusEventsCopy st r).2 = s.eventQueue ∧
    (statusEventsCopy st r).1.read r = s.eventQueue ∧
    ((statusEventsCopy st r).1.write (statusEventsCopy st r).2 v).read r =
      s.eventQueue := by
  refine ⟨rfl, ?_, ?_, ?_, ?_⟩
  · show st.arrays.length ≠ r
    omega
  · show (st.arrays ++ [st.read r]).getD st.arrays.length [] = s.eventQueue
    rw [List.getD_eq_getElem?_getD, List.getElem?_concat_length]
    exact hv
  · show (st.arrays ++ [st.read r]).getD r [] = s.eventQueue
    rw [List.getD_eq_getElem?_getD, List.getElem?_append_left hr,
      ← List.getD_eq_getElem?_getD]
    exact hv
  · show ((st.arrays ++ [st.read r]).set st.arrays.length v).getD r [] =
      s.eventQueue
    rw [List.getD_eq_getElem?_getD, List.getElem?_set_ne (by omega),
      List.getElem?_append_left hr, ← List.getD_eq_getElem?_getD]
    exact hv

def c9Store : ArrayStore :=
  { arrays := [[ev 1, ev 2]] }

/-- Witness for C9 with the internal queue `[e1, e2]` stored at handle 0. -/
theorem claim_c9_status_is_copy_witness :
    0 < c9Store.arrays.length ∧
    c9Store.read 0 = testState.eventQueue ∧
    (getQueueStatus testState =
      { queueLength := testState.eventQueue.length
        events := testState.eventQueue
        connectionStatus := testState.connectionStatus
        manualFlush := testState.options.manualFlush } ∧
     (statusEventsCopy c9Store 0).2 ≠ 0 ∧
     (statusEventsCopy c9Store 0).1.read (statusEventsCopy c9Store 0).2 =
       testState.eventQueue ∧
     (statusEventsCopy c9Store 0).1.read 0 = testState.eventQueue ∧
     ((statusEventsCopy c9Store 0).1.write (statusEventsCopy c9Store 0).2
         [ev 9]).read 0 = testState.eventQueue) :=
  ⟨by decide, rfl, claim_c9_status_is_copy testState c9Store 0 [ev 9] (by decide) rfl⟩
